import Mathlib

/-!
Verification of the generation-client and image-helper functions of
`app.py` (Flux Image Generator & Editor).

The Python functions `generate_image`, `upscale_image`, `resize_image`
and `image_to_bytes` are shallowly embedded below.  HTTP traffic is
modelled by an environment (`Env`) supplying the creation response,
the sequence of poll responses and the bytes served at any fetched
URL; the embedding returns both the outcome and a trace of the
requests issued, so that request-counting properties can be stated.
JSON values are modelled by the inductive `Json`, and the partial
Python accesses (`dict.get`, `d[k]`) by `pyGet` / `pyIndex`, which
surface the exception a CPython run would raise.
-/

namespace FluxApp

/-- JSON values as returned by `response.json()`. -/
inductive Json where
  | null
  | bool (b : Bool)
  | num (n : Int)
  | str (s : String)
  | arr (xs : List Json)
  | obj (fields : List (String × Json))

/-- Lookup of a key in a JSON object's field list; later bindings win,
as in a Python dict built by `json.loads`. -/
def jlookup (fs : List (String × Json)) (k : String) : Option Json :=
  fs.foldl (fun acc p => if p.1 == k then some p.2 else acc) none

/-- Python `d.get(k)`: `None` for a missing key, `AttributeError` when
the receiver is not a dict. -/
def pyGet (j : Json) (k : String) : Except String (Option Json) :=
  match j with
  | .obj fs => .ok (jlookup fs k)
  | _ => .error "AttributeError"

/-- Python `d[k]`: `KeyError` for a missing key, `TypeError` when the
receiver is not a dict (string-keyed indexing). -/
def pyIndex (j : Json) (k : String) : Except String Json :=
  match j with
  | .obj fs =>
    match jlookup fs k with
    | some v => .ok v
    | none => .error "KeyError"
  | _ => .error "TypeError"

/-- Python truthiness of a JSON value (`if not x`). -/
def Json.falsy : Json → Bool
  | .null => true
  | .bool b => !b
  | .num n => n == 0
  | .str s => s == ""
  | .arr xs => xs.isEmpty
  | .obj fs => fs.isEmpty

/-- Truthiness of the result of `d.get(k)` (`None` is falsy). -/
def optFalsy : Option Json → Bool
  | none => true
  | some v => v.falsy

/-- A decoded raster image: size plus row-major single-plane pixel
data, the raster content PIL exposes. -/
structure Image where
  width : Nat
  height : Nat
  data : List Nat
deriving DecidableEq

/-- PIL `img.size`. -/
def Image.size (img : Image) : Nat × Nat := (img.width, img.height)

/-- Raster well-formedness: the data matches the size, and the size
fits in the 32-bit fields of a PNG header (any PNG-encodable image
satisfies this). -/
def Image.wf (img : Image) : Prop :=
  img.data.length = img.width * img.height ∧
  img.width < 4294967296 ∧ img.height < 4294967296

instance (img : Image) : Decidable img.wf := by
  unfold Image.wf; infer_instance

/-- Pixel at `(x, y)`, row-major. -/
def Image.pixel (img : Image) (x y : Nat) : Nat :=
  img.data.getD (y * img.width + x) 0

/-- Modelled from the spec: PIL `Image.resize((w, h))` returns a new
image of exactly the requested size; the resampled content is modelled
as nearest-neighbour (no claim depends on the resampling filter). -/
def resize (img : Image) (w h : Nat) : Image :=
  { width := w, height := h,
    data := (List.range h).flatMap fun y => (List.range w).map fun x =>
      img.pixel (x * img.width / w) (y * img.height / h) }

/-- `resize_image(img, width, height)` from app.py line 43. -/
def resize_image (img : Image) (width height : Nat) : Image :=
  resize img width height

/-- `upscale_image(img, scale)` from app.py line 47:
`w, h = img.size; return img.resize((w * scale, h * scale))`. -/
def upscale_image (img : Image) (scale : Nat) : Image :=
  resize img (img.width * scale) (img.height * scale)

/-- The 8-byte PNG signature. -/
def pngMagic : List Nat := [137, 80, 78, 71, 13, 10, 26, 10]

/-- A natural below 2^32 as four little-endian bytes. -/
def natToBytes4 (n : Nat) : List Nat :=
  [n % 256, n / 256 % 256, n / 65536 % 256, n / 16777216 % 256]

/-- Modelled from the spec: PIL's PNG writer (`img.save(buf, "PNG")`)
is a lossless encoder; it is modelled as signature, 32-bit dimensions
and the raw raster data. -/
def encodePNG (img : Image) : List Nat :=
  pngMagic ++ natToBytes4 img.width ++ natToBytes4 img.height ++ img.data

/-- Modelled from the spec: PIL `Image.open` on a byte buffer decodes
the PNG stream back to the raster, or fails on unrecognised bytes. -/
def decodePNG : List Nat → Option Image
  | 137 :: 80 :: 78 :: 71 :: 13 :: 10 :: 26 :: 10 ::
    w0 :: w1 :: w2 :: w3 :: h0 :: h1 :: h2 :: h3 :: rest =>
    if rest.length =
        (w0 + 256 * w1 + 65536 * w2 + 16777216 * w3) *
        (h0 + 256 * h1 + 65536 * h2 + 16777216 * h3) then
      some { width := w0 + 256 * w1 + 65536 * w2 + 16777216 * w3,
             height := h0 + 256 * h1 + 65536 * h2 + 16777216 * h3,
             data := rest }
    else none
  | _ => none

/-- `image_to_bytes(img, format="PNG")` from app.py line 52; the app
only ever calls it with the default PNG format, which is the path
modelled here. -/
def image_to_bytes (img : Image) : List Nat := encodePNG img

/-- app.py line 13. -/
def BASE_URL : String := "https://api.bfl.ai/v1"

/-- app.py line 14. -/
def GEN_PATH : String := "/flux-pro-1.1-ultra"

/-- An outgoing HTTP request with a JSON body. -/
structure PostRequest where
  method : String
  url : String
  body : Json
  headers : List (String × String)

/-- The single creation request built on app.py lines 19-22:
`requests.post(f"BASE_URLGEN_PATH", json=payload, headers=headers)`
with `headers = x-key/accept` and `payload = prompt/aspect ratio`. -/
def creationRequest (key prompt : String) : PostRequest :=
  { method := "POST",
    url := BASE_URL ++ GEN_PATH,
    body := Json.obj [("prompt", Json.str prompt), ("aspect_ratio", Json.str "1:1")],
    headers := [("x-key", key), ("accept", "application/json")] }

/-- The creation response: HTTP status code, body text, and the parsed
JSON body (assumed parseable, as `response.json()` is only reached on
responses the environment supplies). -/
structure CreationResponse where
  status_code : Nat
  text : String
  body : Json

/-- `response.ok` of the requests library: true unless
`raise_for_status` would raise, i.e. unless `400 <= status < 600`. -/
def CreationResponse.ok (r : CreationResponse) : Bool :=
  decide (¬ (400 ≤ r.status_code ∧ r.status_code < 600))

/-- The external world: the creation response, the parsed JSON body of
the i-th GET on the polling URL, and the bytes served at any URL the
client fetches. -/
structure Env where
  creation : CreationResponse
  poll : Nat → Json
  fetch : String → List Nat

/-- Outcome of one `generate_image` run.  `ok img` is the return
`(img, None)`; the three error constructors are the spec's taxonomy
for the three `(None, message)` returns (`pyReturn` below gives the
exact Python value); `exn` is an uncaught Python exception. -/
inductive GenOutcome where
  | ok (img : Image)
  | transportError (code : Nat) (text : String)
  | protocolError
  | timeoutError
  | exn (name : String)
deriving DecidableEq

/-- The value `generate_image` actually returns in Python: `none` when
an exception escapes, otherwise the `(image, error-message)` pair with
the literal message strings of app.py lines 24, 29 and 37. -/
def GenOutcome.pyReturn : GenOutcome → Option (Option Image × Option String)
  | .ok img => some (some img, none)
  | .transportError c t => some (none, some ("Error: " ++ toString c ++ " " ++ t))
  | .protocolError => some (none, some "No polling URL returned")
  | .timeoutError => some (none, some "Timeout waiting for image")
  | .exn _ => none

/-- Requests issued during one run: the creation POSTs, the number of
GETs on the polling URL, the polling URL itself once one is used, and
the image URLs fetched. -/
structure Trace where
  creationReqs : List PostRequest
  pollRequests : Nat
  polledUrl : Option String
  fetchedUrls : List String

/-- `r2.get("status") == "Ready"` (app.py line 34): true exactly when
the value is the string `"Ready"`. -/
def isReadyStatus : Option Json → Bool
  | some (Json.str s) => s == "Ready"
  | _ => false

/-- One poll-loop iteration's decision on the fetched JSON `r2`
(app.py lines 34-36): `none` means fall through to the next attempt;
`some (o, urls)` means the loop ends now with outcome `o`, having
fetched `urls`. -/
def pollStep (env : Env) (r2 : Json) : Option (GenOutcome × List String) :=
  match pyGet r2 "status" with
  | .error e => some (.exn e, [])
  | .ok st =>
    if isReadyStatus st then
      some (match pyIndex r2 "result" with
        | .error e => (.exn e, [])
        | .ok res =>
          match pyIndex res "sample" with
          | .error e => (.exn e, [])
          | .ok (Json.str u) =>
            (match decodePNG (env.fetch u) with
             | some img => (.ok img, [u])
             | none => (.exn "UnidentifiedImageError", [u]))
          | .ok _ => (.exn "MissingSchema", []))
    else none

/-- A poll response on which the loop continues: its `status` is
readable and is not `"Ready"`. -/
def pollContinues (r2 : Json) : Bool :=
  match pyGet r2 "status" with
  | .ok st => !(isReadyStatus st)
  | .error _ => false

/-- The `for _ in range(60)` loop of app.py lines 32-37, with explicit
fuel; returns the outcome, the number of GETs issued on the polling
URL, and the image URLs fetched. -/
def pollLoop (env : Env) (start : Nat) : Nat → GenOutcome × Nat × List String
  | 0 => (.timeoutError, 0, [])
  | fuel + 1 =>
    match pollStep env (env.poll start) with
    | some (o, f) => (o, 1, f)
    | none =>
      let r := pollLoop env (start + 1) fuel
      (r.1, r.2.1 + 1, r.2.2)

/-- `generate_image(prompt)` from app.py lines 17-37, with the module
globals `FLUX_API_KEY` as `key` and the HTTP world as `env`. -/
def generate_image (key prompt : String) (env : Env) : GenOutcome × Trace :=
  let req := creationRequest key prompt
  if env.creation.ok then
    match pyGet env.creation.body "polling_url" with
    | .error e => (.exn e, ⟨[req], 0, none, []⟩)
    | .ok pu =>
      if optFalsy pu then (.protocolError, ⟨[req], 0, none, []⟩)
      else
        match pu with
        | some (Json.str u) =>
          let r := pollLoop env 0 60
          (r.1, ⟨[req], r.2.1, some u, r.2.2⟩)
        | _ => (.exn "MissingSchema", ⟨[req], 0, none, []⟩)
  else
    (.transportError env.creation.status_code env.creation.text,
     ⟨[req], 0, none, []⟩)

/-! ### Concrete environments used to instantiate the theorems -/

/-- A 1×1 test raster. -/
def imgW : Image := { width := 1, height := 1, data := [7] }

/-- Accepted creation, two Pending polls, then Ready with a sample URL
serving a PNG of `imgW` (the scenario of the spec). -/
def envReady : Env :=
  { creation :=
      { status_code := 200, text := "",
        body := Json.obj [("polling_url", Json.str "https://x/p/1")] },
    poll := fun n =>
      if n < 2 then Json.obj [("status", Json.str "Pending")]
      else Json.obj [("status", Json.str "Ready"),
        ("result", Json.obj [("sample", Json.str "https://x/img/1.png")])],
    fetch := fun u => if u == "https://x/img/1.png" then encodePNG imgW else [] }

/-- Accepted creation whose polls never leave Pending. -/
def envPend : Env :=
  { creation :=
      { status_code := 200, text := "",
        body := Json.obj [("polling_url", Json.str "https://x/p/1")] },
    poll := fun _ => Json.obj [("status", Json.str "Pending")],
    fetch := fun _ => [] }

/-- Creation rejected with HTTP 401 and body "unauthorized". -/
def env401 : Env :=
  { creation := { status_code := 401, text := "unauthorized", body := Json.null },
    poll := fun _ => Json.null, fetch := fun _ => [] }

/-- Creation rejected with HTTP 500. -/
def env500 : Env :=
  { creation := { status_code := 500, text := "server error", body := Json.null },
    poll := fun _ => Json.null, fetch := fun _ => [] }

/-- Creation answered with the non-2xx status 300 (which `response.ok`
accepts) and a body without `polling_url`. -/
def env300 : Env :=
  { creation := { status_code := 300, text := "x", body := Json.obj [] },
    poll := fun _ => Json.null, fetch := fun _ => [] }

/-- Accepted creation whose body has fields but no `polling_url`. -/
def envNoUrl : Env :=
  { creation :=
      { status_code := 200, text := "",
        body := Json.obj [("id", Json.str "42")] },
    poll := fun _ => Json.null, fetch := fun _ => [] }

/-- Accepted creation whose `polling_url` is present but is the empty
string. -/
def envEmptyUrl : Env :=
  { creation :=
      { status_code := 200, text := "",
        body := Json.obj [("polling_url", Json.str "")] },
    poll := fun _ => Json.null, fetch := fun _ => [] }

/-- First poll is Ready but carries no `result` field. -/
def envReadyNoResult : Env :=
  { creation :=
      { status_code := 200, text := "",
        body := Json.obj [("polling_url", Json.str "https://x/p/1")] },
    poll := fun _ => Json.obj [("status", Json.str "Ready")],
    fetch := fun _ => [] }

/-- First poll is Ready with a `result` object lacking `sample`. -/
def envReadyNoSample : Env :=
  { creation :=
      { status_code := 200, text := "",
        body := Json.obj [("polling_url", Json.str "https://x/p/1")] },
    poll := fun _ => Json.obj [("status", Json.str "Ready"),
      ("result", Json.obj [("id", Json.str "1")])],
    fetch := fun _ => [] }

/-! ### Lemmas about the poll loop -/

lemma pollStep_none_of_continues (env : Env) (r2 : Json)
    (h : pollContinues r2 = true) : pollStep env r2 = none := by
  unfold pollContinues at h
  unfold pollStep
  cases hg : pyGet r2 "status" with
  | error e => rw [hg] at h; simp at h
  | ok st =>
    rw [hg] at h
    simp only [Bool.not_eq_true'] at h
    simp [h]

lemma pollStep_shape (env : Env) (r2 : Json) (o : GenOutcome) (f : List String)
    (h : pollStep env r2 = some (o, f)) :
    (∃ e, o = GenOutcome.exn e) ∨ (∃ img, o = GenOutcome.ok img) := by
  unfold pollStep at h
  split at h
  · cases h
    exact Or.inl ⟨_, rfl⟩
  · split at h
    · injection h with h'
      split at h'
      · simp only [Prod.mk.injEq] at h'
        exact Or.inl ⟨_, h'.1.symm⟩
      · split at h'
        · simp only [Prod.mk.injEq] at h'
          exact Or.inl ⟨_, h'.1.symm⟩
        · split at h'
          · simp only [Prod.mk.injEq] at h'
            exact Or.inr ⟨_, h'.1.symm⟩
          · simp only [Prod.mk.injEq] at h'
            exact Or.inl ⟨_, h'.1.symm⟩
        · simp only [Prod.mk.injEq] at h'
          exact Or.inl ⟨_, h'.1.symm⟩
    · exact absurd h (by simp)

lemma pollLoop_count_le (env : Env) :
    ∀ (fuel start : Nat), (pollLoop env start fuel).2.1 ≤ fuel := by
  intro fuel
  induction fuel with
  | zero => intro start; simp [pollLoop]
  | succ n ih =>
    intro start
    simp only [pollLoop]
    cases h : pollStep env (env.poll start) with
    | none => simpa using ih (start + 1)
    | some p =>
      obtain ⟨o, f⟩ := p
      simp

lemma pollLoop_exit (env : Env) (k : Nat) :
    ∀ (start fuel : Nat), k < fuel →
    (∀ i, i < k → pollContinues (env.poll (start + i)) = true) →
    ∀ o f, pollStep env (env.poll (start + k)) = some (o, f) →
    pollLoop env start fuel = (o, k + 1, f) := by
  induction k with
  | zero =>
    intro start fuel hk hc o f hs
    obtain ⟨n, rfl⟩ : ∃ n, fuel = n + 1 := ⟨fuel - 1, by omega⟩
    rw [Nat.add_zero] at hs
    simp [pollLoop, hs]
  | succ k ih =>
    intro start fuel hk hc o f hs
    obtain ⟨n, rfl⟩ : ∃ n, fuel = n + 1 := ⟨fuel - 1, by omega⟩
    have h0 : pollContinues (env.poll start) = true := by
      have := hc 0 (Nat.succ_pos k)
      rwa [Nat.add_zero] at this
    have hrec := ih (start + 1) n (by omega)
      (fun i hi => by
        have := hc (i + 1) (by omega)
        rwa [show start + (i + 1) = start + 1 + i by omega] at this)
      o f (by rwa [show start + 1 + k = start + (k + 1) by omega])
    simp [pollLoop, pollStep_none_of_continues env _ h0, hrec]

lemma pollLoop_timeout (env : Env) :
    ∀ (fuel start : Nat),
    (∀ i, i < fuel → pollContinues (env.poll (start + i)) = true) →
    pollLoop env start fuel = (.timeoutError, fuel, []) := by
  intro fuel
  induction fuel with
  | zero => intro start _; rfl
  | succ n ih =>
    intro start h
    have h0 : pollContinues (env.poll start) = true := by
      have := h 0 (by omega)
      rwa [Nat.add_zero] at this
    have hrec := ih (start + 1)
      (fun i hi => by
        have := h (i + 1) (by omega)
        rwa [show start + (i + 1) = start + 1 + i by omega] at this)
    simp [pollLoop, pollStep_none_of_continues env _ h0, hrec]

lemma pollLoop_not_transport (env : Env) :
    ∀ (fuel start : Nat) (c : Nat) (t : String),
    (pollLoop env start fuel).1 ≠ GenOutcome.transportError c t := by
  intro fuel
  induction fuel with
  | zero => intro start c t; simp [pollLoop]
  | succ n ih =>
    intro start c t
    simp only [pollLoop]
    cases h : pollStep env (env.poll start) with
    | none => simpa using ih (start + 1) c t
    | some p =>
      obtain ⟨o, f⟩ := p
      rcases pollStep_shape env _ o f h with ⟨e, rfl⟩ | ⟨img, rfl⟩ <;> simp

/-! ### Lemmas about `generate_image`'s branches -/

lemma generate_image_notOk (key prompt : String) (env : Env)
    (h : env.creation.ok = false) :
    generate_image key prompt env =
      (.transportError env.creation.status_code env.creation.text,
       ⟨[creationRequest key prompt], 0, none, []⟩) := by
  unfold generate_image
  simp [h]

lemma generate_image_noUrl (key prompt : String) (env : Env) (pu : Option Json)
    (hok : env.creation.ok = true)
    (hpu : pyGet env.creation.body "polling_url" = .ok pu)
    (hf : optFalsy pu = true) :
    generate_image key prompt env =
      (.protocolError, ⟨[creationRequest key prompt], 0, none, []⟩) := by
  unfold generate_image
  simp [hok, hpu, hf]

lemma generate_image_poll (key prompt : String) (env : Env) (u : String)
    (hok : env.creation.ok = true)
    (hpu : pyGet env.creation.body "polling_url" = .ok (some (Json.str u)))
    (hu : u ≠ "") :
    generate_image key prompt env =
      ((pollLoop env 0 60).1,
       ⟨[creationRequest key prompt], (pollLoop env 0 60).2.1, some u,
        (pollLoop env 0 60).2.2⟩) := by
  unfold generate_image
  have hf : optFalsy (some (Json.str u)) = false := by
    simp only [optFalsy, Json.falsy]
    exact beq_eq_false_iff_ne.mpr hu
  simp [hok, hpu, hf]

lemma generate_image_creationReqs (key prompt : String) (env : Env) :
    (generate_image key prompt env).2.creationReqs =
      [creationRequest key prompt] := by
  unfold generate_image
  split
  · split
    · rfl
    · split
      · rfl
      · split <;> rfl
  · rfl

lemma generate_image_polls_le (key prompt : String) (env : Env) :
    (generate_image key prompt env).2.pollRequests ≤ 60 := by
  unfold generate_image
  split
  · split
    · simp
    · split
      · simp
      · split
        · simpa using pollLoop_count_le env 60 0
        · simp
  · simp

/-! ### The claims -/

/-- C1: `poll` issues at most 60 GET requests to the handle, and on
the first Ready response (all earlier responses non-Ready) it fetches
`result.sample`, returns its bytes decoded as an image, and issues no
further poll requests: exactly `k + 1` GETs when the first Ready
response is the `k`-th. -/
theorem claim_C1 :
    (∀ (key prompt : String) (env : Env),
      (generate_image key prompt env).2.pollRequests ≤ 60) ∧
    (∀ (key prompt : String) (env : Env) (u : String) (k : Nat)
      (res : Json) (su : String) (img : Image),
      env.creation.ok = true →
      pyGet env.creation.body "polling_url" = Except.ok (some (Json.str u)) →
      u ≠ "" →
      k < 60 →
      (∀ i, i < k → pollContinues (env.poll i) = true) →
      pyGet (env.poll k) "status" = Except.ok (some (Json.str "Ready")) →
      pyIndex (env.poll k) "result" = Except.ok res →
      pyIndex res "sample" = Except.ok (Json.str su) →
      decodePNG (env.fetch su) = some img →
      (generate_image key prompt env).1 = GenOutcome.ok img ∧
      (generate_image key prompt env).1.pyReturn = some (some img, none) ∧
      (generate_image key prompt env).2.pollRequests = k + 1 ∧
      (generate_image key prompt env).2.fetchedUrls = [su] ∧
      (generate_image key prompt env).2.polledUrl = some u) := by
  constructor
  · exact generate_image_polls_le
  · intro key prompt env u k res su img hok hpu hu hk hc hst hres hsm hdec
    have hstep : pollStep env (env.poll k) = some (GenOutcome.ok img, [su]) := by
      simp [pollStep, hst, isReadyStatus, hres, hsm, hdec]
    have hpoll := pollLoop_exit env k 0 60 hk
      (fun i hi => by simpa using hc i hi)
      (GenOutcome.ok img) [su] (by simpa using hstep)
    rw [generate_image_poll key prompt env u hok hpu hu, hpoll]
    exact ⟨rfl, rfl, rfl, rfl, rfl⟩

/-- C1 witness: the spec scenario — two Pending polls then Ready with
a sample URL — succeeds with the decoded image after exactly 3 poll
requests. -/
theorem claim_C1_witness :
    (generate_image "k" "A serene sunset over a mountain lake" envReady).1 =
      GenOutcome.ok imgW ∧
    (generate_image "k" "A serene sunset over a mountain lake" envReady).1.pyReturn =
      some (some imgW, none) ∧
    (generate_image "k" "A serene sunset over a mountain lake" envReady).2.pollRequests =
      2 + 1 ∧
    (generate_image "k" "A serene sunset over a mountain lake" envReady).2.fetchedUrls =
      ["https://x/img/1.png"] ∧
    (generate_image "k" "A serene sunset over a mountain lake" envReady).2.polledUrl =
      some "https://x/p/1" :=
  claim_C1.2 "k" "A serene sunset over a mountain lake" envReady
    "https://x/p/1" 2 (Json.obj [("sample", Json.str "https://x/img/1.png")])
    "https://x/img/1.png" imgW rfl rfl (by decide) (by decide) (by decide)
    rfl rfl rfl rfl

/-- C2: if none of the 60 poll responses is Ready, `generate_image`
returns the TimeoutError message "Timeout waiting for image" after
exactly 60 poll requests and fetches nothing afterwards. -/
theorem claim_C2 (key prompt : String) (env : Env) (u : String)
    (hok : env.creation.ok = true)
    (hpu : pyGet env.creation.body "polling_url" = Except.ok (some (Json.str u)))
    (hu : u ≠ "")
    (hc : ∀ i, i < 60 → pollContinues (env.poll i) = true) :
    (generate_image key prompt env).1 = GenOutcome.timeoutError ∧
    (generate_image key prompt env).1.pyReturn =
      some (none, some "Timeout waiting for image") ∧
    (generate_image key prompt env).2.pollRequests = 60 ∧
    (generate_image key prompt env).2.fetchedUrls = [] := by
  rw [generate_image_poll key prompt env u hok hpu hu,
    pollLoop_timeout env 60 0 (fun i hi => by simpa using hc i hi)]
  exact ⟨rfl, rfl, rfl, rfl⟩

/-- C2 witness: an environment whose polls are always Pending times
out after exactly 60 poll requests. -/
theorem claim_C2_witness :
    (generate_image "k" "p" envPend).1 = GenOutcome.timeoutError ∧
    (generate_image "k" "p" envPend).1.pyReturn =
      some (none, some "Timeout waiting for image") ∧
    (generate_image "k" "p" envPend).2.pollRequests = 60 ∧
    (generate_image "k" "p" envPend).2.fetchedUrls = [] :=
  claim_C2 "k" "p" envPend "https://x/p/1" rfl rfl (by decide) (by decide)

/-- C3 counterexample: a creation response with the non-2xx status 300
passes the `response.ok` check (requests treats every status below 400
as ok), so `generate_image` proceeds and here fails with the protocol
error, not with a TransportError carrying 300 and the body text. -/
theorem claim_C3_counterexample :
    ¬ (200 ≤ env300.creation.status_code ∧ env300.creation.status_code < 300) ∧
    (generate_image "k" "p" env300).1 = GenOutcome.protocolError ∧
    (generate_image "k" "p" env300).1 ≠ GenOutcome.transportError 300 "x" :=
  ⟨by decide, rfl, by decide⟩

/-- C3 amended: `submit` fails with a TransportError carrying the
original status code and body text exactly for status codes in the
range 400..599 (the codes `requests.Response.ok` rejects); for any
other status code — including non-2xx codes below 400 — it proceeds
past the check and never produces a TransportError. -/
theorem claim_C3_amended (key prompt : String) (env : Env) :
    (400 ≤ env.creation.status_code → env.creation.status_code < 600 →
      (generate_image key prompt env).1 =
        GenOutcome.transportError env.creation.status_code env.creation.text ∧
      (generate_image key prompt env).1.pyReturn =
        some (none, some ("Error: " ++ toString env.creation.status_code ++ " " ++
          env.creation.text)) ∧
      (generate_image key prompt env).2.pollRequests = 0) ∧
    (env.creation.ok = true →
      ∀ c t, (generate_image key prompt env).1 ≠ GenOutcome.transportError c t) := by
  constructor
  · intro h400 h600
    have hok : env.creation.ok = false := by
      unfold CreationResponse.ok
      rw [decide_eq_false_iff_not]
      exact not_not_intro ⟨h400, h600⟩
    rw [generate_image_notOk key prompt env hok]
    exact ⟨rfl, rfl, rfl⟩
  · intro hok c t
    unfold generate_image
    simp only [hok, if_true]
    split
    · simp
    · split
      · simp
      · split
        · simpa using pollLoop_not_transport env 60 0 c t
        · simp

/-- C3 witness: a 500 creation response yields the transport error
with its status and body, and an ok-status environment never yields a
transport error. -/
theorem claim_C3_witness :
    ((generate_image "k" "p" env500).1 =
      GenOutcome.transportError 500 "server error" ∧
     (generate_image "k" "p" env500).1.pyReturn =
      some (none, some "Error: 500 server error") ∧
     (generate_image "k" "p" env500).2.pollRequests = 0) ∧
    (generate_image "k" "p" env300).1 ≠ GenOutcome.transportError 5 "y" :=
  ⟨(claim_C3_amended "k" "p" env500).1 (by decide) (by decide),
   (claim_C3_amended "k" "p" env300).2 rfl 5 "y"⟩

/-- C4 counterexample: on an accepted creation response without
`polling_url` the code's message is "No polling URL returned" (capital
N, app.py line 29), not the claimed "no polling URL returned". -/
theorem claim_C4_counterexample :
    (generate_image "k" "p" envNoUrl).1.pyReturn =
      some (none, some "No polling URL returned") ∧
    (generate_image "k" "p" envNoUrl).1.pyReturn ≠
      some (none, some "no polling URL returned") :=
  ⟨rfl, by decide⟩

/-- C4 amended: for every accepted creation response whose JSON body
(an object) omits the `polling_url` field, `generate_image` fails with
the ProtocolError message "No polling URL returned" regardless of the
other fields, and no poll or fetch request is issued. -/
theorem claim_C4_amended (key prompt : String) (env : Env)
    (fs : List (String × Json))
    (hok : env.creation.ok = true)
    (hbody : env.creation.body = Json.obj fs)
    (hmiss : jlookup fs "polling_url" = none) :
    (generate_image key prompt env).1 = GenOutcome.protocolError ∧
    (generate_image key prompt env).1.pyReturn =
      some (none, some "No polling URL returned") ∧
    (generate_image key prompt env).2.pollRequests = 0 ∧
    (generate_image key prompt env).2.fetchedUrls = [] := by
  have hpu : pyGet env.creation.body "polling_url" = Except.ok none := by
    rw [hbody]
    simp [pyGet, hmiss]
  rw [generate_image_noUrl key prompt env none hok hpu rfl]
  exact ⟨rfl, rfl, rfl, rfl⟩

/-- C4 witness: an accepted response whose body has only an `id` field
produces the protocol error and no poll requests. -/
theorem claim_C4_witness :
    (generate_image "k" "p" envNoUrl).1 = GenOutcome.protocolError ∧
    (generate_image "k" "p" envNoUrl).1.pyReturn =
      some (none, some "No polling URL returned") ∧
    (generate_image "k" "p" envNoUrl).2.pollRequests = 0 ∧
    (generate_image "k" "p" envNoUrl).2.fetchedUrls = [] :=
  claim_C4_amended "k" "p" envNoUrl [("id", Json.str "42")] rfl rfl rfl

/-- C5 counterexample: a response that contains `polling_url` with the
empty-string value is treated as missing (`if not polling_url`), so
`generate_image` fails with the protocol error and never polls that
value. -/
theorem claim_C5_counterexample :
    jlookup [("polling_url", Json.str "")] "polling_url" =
      some (Json.str "") ∧
    (generate_image "k" "p" envEmptyUrl).1 = GenOutcome.protocolError ∧
    (generate_image "k" "p" envEmptyUrl).2.polledUrl = none ∧
    (generate_image "k" "p" envEmptyUrl).2.pollRequests = 0 :=
  ⟨rfl, rfl, rfl, rfl⟩

/-- C5 amended: for every prompt, `generate_image` issues exactly one
creation request; and whenever the accepted response's `polling_url`
field holds a non-empty string, that exact URL value is the one
polled, unchanged. -/
theorem claim_C5_amended (key prompt : String) :
    (∀ env : Env, (generate_image key prompt env).2.creationReqs.length = 1) ∧
    (∀ (env : Env) (u : String),
      env.creation.ok = true →
      pyGet env.creation.body "polling_url" = Except.ok (some (Json.str u)) →
      u ≠ "" →
      (generate_image key prompt env).2.creationReqs =
        [creationRequest key prompt] ∧
      (generate_image key prompt env).2.polledUrl = some u) := by
  constructor
  · intro env
    rw [generate_image_creationReqs]
    rfl
  · intro env u hok hpu hu
    rw [generate_image_poll key prompt env u hok hpu hu]
    exact ⟨rfl, rfl⟩

/-- C5 witness: one creation request is issued and the returned
polling URL is polled unchanged. -/
theorem claim_C5_witness :
    (generate_image "k" "p" envPend).2.creationReqs =
      [creationRequest "k" "p"] ∧
    (generate_image "k" "p" envPend).2.polledUrl = some "https://x/p/1" :=
  (claim_C5_amended "k" "p").2 envPend "https://x/p/1" rfl rfl (by decide)

/-- C6: the single creation request is a POST to `BASE_URL` followed
by `GEN_PATH`, with body exactly the prompt plus the fixed "1:1"
aspect-ratio field, and headers containing `x-key` bound to the
credential and `accept` bound to `application/json`. -/
theorem claim_C6 (key prompt : String) (env : Env) :
    (generate_image key prompt env).2.creationReqs =
      [creationRequest key prompt] ∧
    (creationRequest key prompt).method = "POST" ∧
    (creationRequest key prompt).url = BASE_URL ++ GEN_PATH ∧
    (creationRequest key prompt).body =
      Json.obj [("prompt", Json.str prompt), ("aspect_ratio", Json.str "1:1")] ∧
    ("x-key", key) ∈ (creationRequest key prompt).headers ∧
    ("accept", "application/json") ∈ (creationRequest key prompt).headers :=
  ⟨generate_image_creationReqs key prompt env, rfl, rfl, rfl,
   by simp [creationRequest], by simp [creationRequest]⟩

/-- C7: a creation call answered with HTTP 401 and body "unauthorized"
fails with the transport error carrying 401 and "unauthorized", and no
poll or fetch request is ever made. -/
theorem claim_C7 (key prompt : String) (env : Env)
    (hc : env.creation.status_code = 401)
    (ht : env.creation.text = "unauthorized") :
    (generate_image key prompt env).1 =
      GenOutcome.transportError 401 "unauthorized" ∧
    (generate_image key prompt env).1.pyReturn =
      some (none, some "Error: 401 unauthorized") ∧
    (generate_image key prompt env).2.pollRequests = 0 ∧
    (generate_image key prompt env).2.fetchedUrls = [] := by
  have hok : env.creation.ok = false := by
    unfold CreationResponse.ok
    rw [hc]
    rfl
  rw [generate_image_notOk key prompt env hok, hc, ht]
  exact ⟨rfl, rfl, rfl, rfl⟩

/-- C7 witness: the concrete 401/"unauthorized" environment. -/
theorem claim_C7_witness :
    (generate_image "k" "p" env401).1 =
      GenOutcome.transportError 401 "unauthorized" ∧
    (generate_image "k" "p" env401).1.pyReturn =
      some (none, some "Error: 401 unauthorized") ∧
    (generate_image "k" "p" env401).2.pollRequests = 0 ∧
    (generate_image "k" "p" env401).2.fetchedUrls = [] :=
  claim_C7 "k" "p" env401 rfl rfl

/-- C8: when the first Ready poll response lacks `result`, or its
`result` object lacks `sample`, the partial accesses
`r2["result"]["sample"]` raise a KeyError: `generate_image` ends in an
uncaught exception (no Python return value at all), not in the
TimeoutError or ProtocolError result. -/
theorem claim_C8 (key prompt : String) (env : Env) (u : String) (k : Nat)
    (hok : env.creation.ok = true)
    (hpu : pyGet env.creation.body "polling_url" = Except.ok (some (Json.str u)))
    (hu : u ≠ "")
    (hk : k < 60)
    (hc : ∀ i, i < k → pollContinues (env.poll i) = true)
    (hst : pyGet (env.poll k) "status" = Except.ok (some (Json.str "Ready"))) :
    (pyIndex (env.poll k) "result" = Except.error "KeyError" →
      (generate_image key prompt env).1 = GenOutcome.exn "KeyError" ∧
      (generate_image key prompt env).1 ≠ GenOutcome.timeoutError ∧
      (generate_image key prompt env).1 ≠ GenOutcome.protocolError ∧
      (generate_image key prompt env).1.pyReturn = none) ∧
    (∀ res, pyIndex (env.poll k) "result" = Except.ok res →
      pyIndex res "sample" = Except.error "KeyError" →
      (generate_image key prompt env).1 = GenOutcome.exn "KeyError" ∧
      (generate_image key prompt env).1 ≠ GenOutcome.timeoutError ∧
      (generate_image key prompt env).1 ≠ GenOutcome.protocolError ∧
      (generate_image key prompt env).1.pyReturn = none) := by
  constructor
  · intro hres
    have hstep : pollStep env (env.poll k) = some (GenOutcome.exn "KeyError", []) := by
      simp [pollStep, hst, isReadyStatus, hres]
    have hpoll := pollLoop_exit env k 0 60 hk
      (fun i hi => by simpa using hc i hi)
      (GenOutcome.exn "KeyError") [] (by simpa using hstep)
    rw [generate_image_poll key prompt env u hok hpu hu, hpoll]
    exact ⟨rfl, by simp, by simp, rfl⟩
  · intro res hres hsm
    have hstep : pollStep env (env.poll k) = some (GenOutcome.exn "KeyError", []) := by
      simp [pollStep, hst, isReadyStatus, hres, hsm]
    have hpoll := pollLoop_exit env k 0 60 hk
      (fun i hi => by simpa using hc i hi)
      (GenOutcome.exn "KeyError") [] (by simpa using hstep)
    rw [generate_image_poll key prompt env u hok hpu hu, hpoll]
    exact ⟨rfl, by simp, by simp, rfl⟩

/-- C8 witness: a Ready response without `result`, and a Ready
response whose `result` lacks `sample`, both end in a KeyError. -/
theorem claim_C8_witness :
    ((generate_image "k" "p" envReadyNoResult).1 = GenOutcome.exn "KeyError" ∧
     (generate_image "k" "p" envReadyNoResult).1 ≠ GenOutcome.timeoutError ∧
     (generate_image "k" "p" envReadyNoResult).1 ≠ GenOutcome.protocolError ∧
     (generate_image "k" "p" envReadyNoResult).1.pyReturn = none) ∧
    ((generate_image "k" "p" envReadyNoSample).1 = GenOutcome.exn "KeyError" ∧
     (generate_image "k" "p" envReadyNoSample).1 ≠ GenOutcome.timeoutError ∧
     (generate_image "k" "p" envReadyNoSample).1 ≠ GenOutcome.protocolError ∧
     (generate_image "k" "p" envReadyNoSample).1.pyReturn = none) :=
  ⟨(claim_C8 "k" "p" envReadyNoResult "https://x/p/1" 0 rfl rfl (by decide)
      (by decide) (by decide) rfl).1 rfl,
   (claim_C8 "k" "p" envReadyNoSample "https://x/p/1" 0 rfl rfl (by decide)
      (by decide) (by decide) rfl).2 (Json.obj [("id", Json.str "1")]) rfl rfl⟩

/-- C9: for every well-formed (PNG-encodable) image, decoding the
bytes produced by `image_to_bytes` with its default PNG format yields
the image back: same size and same pixel data. -/
theorem claim_C9 (img : Image) (h : img.wf) :
    decodePNG (image_to_bytes img) = some img := by
  obtain ⟨hlen, hw, hh⟩ := h
  have ew : img.width % 256 + 256 * (img.width / 256 % 256) +
      65536 * (img.width / 65536 % 256) +
      16777216 * (img.width / 16777216 % 256) = img.width := by omega
  have eh : img.height % 256 + 256 * (img.height / 256 % 256) +
      65536 * (img.height / 65536 % 256) +
      16777216 * (img.height / 16777216 % 256) = img.height := by omega
  simp only [image_to_bytes, encodePNG, pngMagic, natToBytes4,
    List.cons_append, List.nil_append, decodePNG]
  rw [ew, eh, if_pos hlen]

/-- C9 witness: the round trip at a concrete 2×1 image. -/
theorem claim_C9_witness :
    (Image.mk 2 1 [3, 5]).wf ∧
    decodePNG (image_to_bytes (Image.mk 2 1 [3, 5])) =
      some (Image.mk 2 1 [3, 5]) :=
  ⟨by decide, claim_C9 (Image.mk 2 1 [3, 5]) (by decide)⟩

/-- C10: for every image and positive scale, `upscale_image` returns
an image whose size is exactly (width * scale, height * scale); in
this pure embedding of PIL's non-mutating `resize` the input image is
untouched by construction. -/
theorem claim_C10 (img : Image) (scale : Nat) (_h : 0 < scale) :
    (upscale_image img scale).size =
      (img.size.1 * scale, img.size.2 * scale) := rfl

/-- C10 witness: upscaling a 3×2 image by 2 gives a 6×4 image. -/
theorem claim_C10_witness :
    0 < 2 ∧
    (upscale_image (Image.mk 3 2 [0, 1, 2, 3, 4, 5]) 2).size =
      ((Image.mk 3 2 [0, 1, 2, 3, 4, 5]).size.1 * 2,
       (Image.mk 3 2 [0, 1, 2, 3, 4, 5]).size.2 * 2) :=
  ⟨by decide, claim_C10 (Image.mk 3 2 [0, 1, 2, 3, 4, 5]) 2 (by decide)⟩

end FluxApp
